import Mathlib

/-!
Verification of the karaoke-box booking backend (`backend/server.js`,
first snapshot of the file, lines 1-1586, which is the canonical version).

The JavaScript handlers are embedded shallowly:

* An ISO-8601 datetime string such as `"2025-06-01T18:00:00+01:00"` is
  represented by the record `IsoDateTime`: its calendar-date part as an
  epoch day number (`day`, the first 10 characters of the string), its
  wall-clock `hour` and `minute` fields, and the `offsetMinutes` encoded
  by the `±HH:MM` suffix.  The database (Postgres `timestamptz`) compares
  such strings as instants; `IsoDateTime.instant` is that interpretation,
  in minutes.  A calendar-date string `"YYYY-MM-DD"` is likewise
  represented by its epoch day number, so the server's lexicographic
  comparisons of date strings become integer comparisons and
  `addDaysToDateString` becomes integer addition.
* JavaScript field absence (`undefined` / `null`) and the falsy empty
  string are both modelled as `Option.none`; euro amounts (JS numbers)
  are modelled as `ℚ`; `Math.floor` is `Int.floor`, `Math.round x` is
  `⌊x + 1/2⌋`, JS integer division `Math.floor (a / b)` is `Int.fdiv`
  and the JS `%` operator is `Int.tmod`.
* Each HTTP handler becomes a pure function from its inputs, the
  database state it reads, and the external collaborators' answers
  (Stripe payment status by intent id) to an outcome recording the JSON
  response, the resulting database state, and whether the Stripe
  collaborator was consulted.  Post-insert best-effort side effects
  (confirmation email, loyalty points, promo usage counters) touch
  neither the reservations table nor the response and are outside the
  modelled state.
-/

/-- An ISO datetime string, represented by its parsed fields: `day` is the
epoch day number of the date part (the first 10 characters), `hour` and
`minute` the wall-clock fields, `offsetMinutes` the timezone suffix
(`"+01:00"` is `60`, `"Z"` is `0`). -/
structure IsoDateTime where
  day : Int
  hour : Int
  minute : Int
  offsetMinutes : Int
deriving DecidableEq

/-- The instant denoted by an ISO datetime, in minutes since the epoch.
This is the order in which the database compares `timestamptz` values. -/
def IsoDateTime.instant (t : IsoDateTime) : Int :=
  t.day * 1440 + t.hour * 60 + t.minute - t.offsetMinutes

/-- The raw `slot.hour` field: a JS number (possibly fractional, e.g.
`18.5`) or a free-text string such as `"18h30"` or `"18h-19h"`. -/
inductive RawHour where
  | num (x : ℚ)
  | str (s : String)
deriving DecidableEq

/-- One cart entry as submitted by the client.  String datetimes are
represented as `IsoDateTime` records and date strings as day numbers;
`none` covers absent and falsy (empty-string) values.  The four box
fields are the aliases consulted by
`slot.boxId ?? slot.box_id ?? slot.box ?? slot.boxName ?? 1`. -/
structure Slot where
  date : Option Int
  hour : Option RawHour
  start_time : Option IsoDateTime
  end_time : Option IsoDateTime
  price : Option ℚ
  boxId : Option String
  box_id : Option String
  box : Option String
  boxName : Option String
deriving DecidableEq

/-- `PRICE_PER_SLOT_EUR = 10`: fallback price when a slot has no numeric
price. -/
def PRICE_PER_SLOT_EUR : ℚ := 10

/-- `SLOT_DURATION_MINUTES = 90`: default slot duration. -/
def SLOT_DURATION_MINUTES : Int := 90

/-- `computeCartTotalEur(panier)`: sum of `item.price` when it is a
number and not `NaN` (modelled by `some`), else `PRICE_PER_SLOT_EUR`. -/
def computeCartTotalEur (panier : List Slot) : ℚ :=
  panier.foldl (fun sum item => sum + (item.price.getD PRICE_PER_SLOT_EUR)) 0

/-- `Math.round` of JavaScript: round half toward positive infinity. -/
def jsRound (x : ℚ) : ℚ := ((⌊x + 1/2⌋ : Int) : ℚ)

/-- `String.prototype.toUpperCase()` (ASCII-relevant part). -/
def jsToUpper (s : String) : String := ⟨s.data.map Char.toUpper⟩

/-- `String.prototype.trim()`: strip whitespace from both ends. -/
def jsTrim (s : String) : String :=
  ⟨(s.data.dropWhile Char.isWhitespace).reverse.dropWhile Char.isWhitespace |>.reverse⟩

/-- Numeric value of a digit character. -/
def digitVal (c : Char) : Nat := c.toNat - '0'.toNat

/-- Suffix of the character list starting at its first decimal digit. -/
def dropToFirstDigit : List Char → List Char
  | [] => []
  | c :: cs => if c.isDigit then c :: cs else dropToFirstDigit cs

/-- First match of the regex `(\d{1,2})[h:]?(\d{2})?` used on textual
hour fields: greedy one-or-two-digit hour, optional `h`/`:` separator,
optional exactly-two-digit minute (defaulting to 0).  `none` when the
string contains no digit, in which case the caller keeps hour 0. -/
def parseHourString (s : String) : Option (Nat × Nat) :=
  match dropToFirstDigit s.data with
  | [] => none
  | c :: cs =>
    let hourRest : Nat × List Char :=
      match cs with
      | d :: ds => if d.isDigit then (10 * digitVal c + digitVal d, ds) else (digitVal c, d :: ds)
      | [] => (digitVal c, [])
    let afterSep : List Char :=
      match hourRest.2 with
      | x :: xs => if x = 'h' ∨ x = ':' then xs else x :: xs
      | [] => []
    let minuteNum : Nat :=
      match afterSep with
      | a :: b :: _ => if a.isDigit ∧ b.isDigit then 10 * digitVal a + digitVal b else 0
      | _ => 0
    some (hourRest.1, minuteNum)

/-- Hour and minute extracted from a raw hour field: for a number,
`Math.floor` gives the hour and `Math.round` of the fractional part ×60
the minute; for a string, the first regex match, defaulting to `(0, 0)`
when nothing matches. -/
def hourMinuteOfRaw : RawHour → Int × Int
  | .num x => (⌊x⌋, ⌊(x - ((⌊x⌋ : Int) : ℚ)) * 60 + 1/2⌋)
  | .str s =>
    match parseHourString s with
    | some hm => ((hm.1 : Int), (hm.2 : Int))
    | none => (0, 0)

/-- `addDaysToDateString(dateStr, daysToAdd)`: parses `"YYYY-MM-DD"`,
adds the days with JS `Date.UTC` arithmetic and reformats.  On epoch day
numbers this is exactly integer addition. -/
def addDaysToDateString (day : Int) (daysToAdd : Int) : Int :=
  day + daysToAdd

/-- The record returned by `buildTimesFromSlot`. -/
structure SlotTimes where
  start_time : IsoDateTime
  end_time : IsoDateTime
  date : Int
  datetime : IsoDateTime
deriving DecidableEq

/-- Case 2 of `buildTimesFromSlot(slot)` (`date` + `hour`): the start
is the wall-clock `(date, hour, minute)` with the fixed `"+01:00"`
offset and the end is start plus `SLOT_DURATION_MINUTES`, rolling the
calendar day forward with `addDaysToDateString` when the end crosses
midnight (`Math.floor` division and the JS `%` operator). -/
def buildTimesFromHour (date : Int) (rawHour : RawHour) : SlotTimes :=
  let hm := hourMinuteOfRaw rawHour
  let hourNum := hm.1
  let minuteNum := hm.2
  let offsetMinutes : Int := 60
  let startT : IsoDateTime :=
    { day := date, hour := hourNum, minute := minuteNum, offsetMinutes := offsetMinutes }
  let totalStartMinutes := hourNum * 60 + minuteNum + SLOT_DURATION_MINUTES
  let minutesPerDay : Int := 24 * 60
  let endDayOffset := Int.fdiv totalStartMinutes minutesPerDay
  let minutesOfDay := Int.tmod totalStartMinutes minutesPerDay
  let endHour := Int.fdiv minutesOfDay 60
  let endMinute := Int.tmod minutesOfDay 60
  let endDateStr := if endDayOffset = 0 then date else addDaysToDateString date endDayOffset
  let endT : IsoDateTime :=
    { day := endDateStr, hour := endHour, minute := endMinute, offsetMinutes := offsetMinutes }
  { start_time := startT, end_time := endT, date := date, datetime := startT }

/-- `buildTimesFromSlot(slot)`.  Case 1: both `start_time` and
`end_time` are truthy — they are returned verbatim and `date` is the
slot's `date` or the date part (first 10 characters) of `start_time`.
Case 2 (`date` + `hour` present) delegates to `buildTimesFromHour`;
anything else throws. -/
def buildTimesFromSlot (slot : Slot) : Except String SlotTimes :=
  match slot.start_time, slot.end_time with
  | some st, some et =>
    .ok { start_time := st, end_time := et, date := slot.date.getD st.day, datetime := st }
  | _, _ =>
    match slot.date, slot.hour with
    | some date, some rawHour => .ok (buildTimesFromHour date rawHour)
    | _, _ => .error "Slot incomplet : date / hour ou start_time / end_time manquants"

/-- One row of the `promo_codes` table.  `valid_from` / `valid_to` are
date strings modelled as day numbers; optional columns are `Option`. -/
structure PromoRecord where
  id : Int
  code : String
  type : String
  value : Option ℚ
  is_active : Option Bool
  valid_from : Option Int
  valid_to : Option Int
  max_uses : Option Int
  used_count : Int
deriving DecidableEq

/-- Result of `validatePromoCode`: `{ok:false, reason}` or
`{ok:true, newTotal, discountAmount, promo}`. -/
inductive PromoResult where
  | notApplied (reason : String)
  | applied (newTotal : ℚ) (discountAmount : ℚ) (promo : PromoRecord)
deriving DecidableEq

/-- `.eq("code", upperCode).single()`: exactly one matching row, else an
error (modelled as `none`). -/
def singleByCode (table : List PromoRecord) (upperCode : String) : Option PromoRecord :=
  match table.filter (fun p => p.code = upperCode) with
  | [p] => some p
  | _ => none

/-- `promo.valid_from && today < promo.valid_from`. -/
def promoFromBlocks (promo : PromoRecord) (today : Int) : Bool :=
  match promo.valid_from with
  | some vf => decide (today < vf)
  | none => false

/-- `promo.valid_to && today > promo.valid_to`. -/
def promoToBlocks (promo : PromoRecord) (today : Int) : Bool :=
  match promo.valid_to with
  | some vt => decide (today > vt)
  | none => false

/-- `promo.max_uses && promo.used_count >= promo.max_uses` (`0` is
falsy, so a zero `max_uses` disables the check). -/
def promoUsesBlock (promo : PromoRecord) : Bool :=
  match promo.max_uses with
  | some mu => decide (mu ≠ 0) && decide (promo.used_count ≥ mu)
  | none => false

/-- `validatePromoCode(code, totalAmountEur)` against the
`promo_codes` table, with `today` the server's current date
(`new Date().toISOString().slice(0,10)`) as a day number.  Checks, in
order: non-empty code, lookup of the trimmed upper-cased code,
`is_active === false`, `valid_from` / `valid_to` window, and
`max_uses` exhaustion (skipped when `max_uses` is falsy).  On success
the discount is computed from `type` and `value` (`Number(value) || 0`)
and `newTotal = max(0, total - discount)`. -/
def validatePromoCode (table : List PromoRecord) (today : Int) (code : String)
    (totalAmountEur : ℚ) : PromoResult :=
  if code = "" then .notApplied "Code vide"
  else
    let upperCode := jsToUpper (jsTrim code)
    match singleByCode table upperCode with
    | none => .notApplied "Code introuvable"
    | some promo =>
      if promo.is_active = some false then .notApplied "Code inactif"
      else if promoFromBlocks promo today then .notApplied "Code pas encore valable"
      else if promoToBlocks promo today then .notApplied "Code expiré"
      else if promoUsesBlock promo then .notApplied "Nombre d'utilisations atteint"
      else
        let value := promo.value.getD 0
        let discountAmount : ℚ :=
          if promo.type = "percent" then jsRound (totalAmountEur * (value / 100))
          else if promo.type = "fixed" then min totalAmountEur value
          else if promo.type = "free" then totalAmountEur
          else 0
        let newTotal := max 0 (totalAmountEur - discountAmount)
        .applied newTotal discountAmount promo

/-- A row of the `reservations` table, as built by
`/api/confirm-reservation` (the database additionally assigns an `id`,
which is irrelevant to the conflict logic). -/
structure ReservationRow where
  name : Option String
  email : Option String
  box_id : Int
  start_time : IsoDateTime
  end_time : IsoDateTime
  date : Int
  datetime : IsoDateTime
  status : String
deriving DecidableEq

/-- Whether one existing reservation row matches the conflict query
`.eq("box_id", boxId).lt("start_time", endT).gt("end_time", startT)`:
same box, `existing.start < candidate.end` and
`existing.end > candidate.start`, both strict, on instants. -/
def conflictsWith (r : ReservationRow) (boxId : Int) (startT endT : IsoDateTime) : Bool :=
  decide (r.box_id = boxId) && decide (r.start_time.instant < endT.instant)
    && decide (r.end_time.instant > startT.instant)

/-- The availability check: the conflict query returns at least one row
of the `reservations` table. -/
def hasConflict (store : List ReservationRow) (boxId : Int) (startT endT : IsoDateTime) : Bool :=
  store.any (fun r => conflictsWith r boxId startT endT)

/-- Digits-only `parseInt`: value of the digit characters kept by
`String(rawBox).replace(/[^0-9]/g, "")`, or `none` when none remain
(`parseInt("")` is `NaN`). -/
def parseIntOfDigits (s : String) : Option Nat :=
  let digits := s.data.filter Char.isDigit
  if digits = [] then none
  else some (digits.foldl (fun acc c => 10 * acc + digitVal c) 0)

/-- `slot.boxId ?? slot.box_id ?? slot.box ?? slot.boxName ?? 1`, then
strip non-digits and `parseInt`; a non-finite result falls back to box
`1`. -/
def resolveBoxId (slot : Slot) : Int :=
  let rawBox := (((slot.boxId.or slot.box_id).or slot.box).or slot.boxName).getD "1"
  match parseIntOfDigits rawBox with
  | some n => (n : Int)
  | none => 1

/-- Customer contact info from the request body. -/
structure Customer where
  prenom : Option String
  nom : Option String
  email : Option String
deriving DecidableEq

/-- `(customer?.prenom || "") + (customer?.prenom ? " " : "") +
(customer?.nom || "")`. -/
def fullNameOf (customer : Option Customer) : String :=
  match customer with
  | none => ""
  | some c =>
    (c.prenom.getD "") ++ (match c.prenom with | some p => if p = "" then "" else " " | none => "") ++
      (c.nom.getD "")

/-- `customer?.email || null`: the email when present and non-empty. -/
def emailOf (customer : Option Customer) : Option String :=
  match customer with
  | none => none
  | some c =>
    match c.email with
    | some e => if e = "" then none else some e
    | none => none

/-- One row of the batch insert: resolved times, resolved box id, the
customer's full name (`null` when empty) and email, and status
`"confirmed"`.  `buildTimesFromSlot` may throw, which aborts the whole
handler. -/
def rowOfSlot (fullName : String) (email : Option String) (slot : Slot) :
    Except String ReservationRow :=
  match buildTimesFromSlot slot with
  | .error e => .error e
  | .ok times =>
    .ok
      { name := if fullName = "" then none else some fullName
        email := email
        box_id := resolveBoxId slot
        start_time := times.start_time
        end_time := times.end_time
        date := times.date
        datetime := times.datetime
        status := "confirmed" }

/-- `panier.map(slot => {...buildTimesFromSlot(slot)...})`: builds the
rows left to right; the first malformed slot throws and aborts. -/
def buildRows (fullName : String) (email : Option String) :
    List Slot → Except String (List ReservationRow)
  | [] => .ok []
  | slot :: rest =>
    match rowOfSlot fullName email slot with
    | .error e => .error e
    | .ok r =>
      match buildRows fullName email rest with
      | .error e => .error e
      | .ok rs => .ok (r :: rs)

/-- The JSON response of `/api/confirm-reservation`. -/
inductive ConfirmResponse where
  | badRequest (msg : String)
  | serverError (msg : String)
  | ok (reservations : List ReservationRow) (promo : Option (String × ℚ × ℚ × ℚ))
deriving DecidableEq

/-- Whether a confirm response is the success response. -/
def ConfirmResponse.isOk : ConfirmResponse → Bool
  | .ok _ _ => true
  | _ => false

/-- The request body of `/api/confirm-reservation`; boolean fields model
the truthiness of the raw values. -/
structure ConfirmRequest where
  panier : List Slot
  customer : Option Customer
  promoCode : Option String
  paymentIntentId : Option String
  loyaltyUsed : Bool
  isFree : Bool
deriving DecidableEq

/-- Outcome of a confirm-reservation call: the response, the resulting
`reservations` table, and whether `stripe.paymentIntents.retrieve` was
called. -/
structure ConfirmOutcome where
  response : ConfirmResponse
  store : List ReservationRow
  stripeChecked : Bool
deriving DecidableEq

/-- The promo block of `/api/confirm-reservation`: recompute the cart
total, re-validate the promo code, and keep the discount and the promo
row for the statistics and the response. -/
def confirmPromoOf (table : List PromoRecord) (today : Int) (promoCode : Option String)
    (totalBeforeDiscount : ℚ) : ℚ × Option PromoRecord :=
  match promoCode with
  | some c =>
    match validatePromoCode table today c totalBeforeDiscount with
    | .applied _ d p => (d, some p)
    | .notApplied _ => (0, none)
  | none => (0, none)

/-- The persistence half of `/api/confirm-reservation`, reached once the
payment gate has passed: recompute the totals for the promo statistics,
build the rows (a malformed slot throws to the catch-all 500), check
each row against the already-persisted reservations — the first
conflicting row aborts with a 400 and nothing is inserted — then insert
all rows as one batch. -/
def confirmPersist (table : List PromoRecord) (today : Int) (store : List ReservationRow)
    (req : ConfirmRequest) (stripeChecked : Bool) : ConfirmOutcome :=
  let fullName := fullNameOf req.customer
  let totalBeforeDiscount := computeCartTotalEur req.panier
  let promoPair := confirmPromoOf table today req.promoCode totalBeforeDiscount
  let discountAmount := promoPair.1
  let promo := promoPair.2
  match buildRows fullName (emailOf req.customer) req.panier with
  | .error _ =>
    { response := .serverError "Erreur serveur lors de la réservation"
      store := store, stripeChecked := stripeChecked }
  | .ok rows =>
    match rows.find? (fun row => hasConflict store row.box_id row.start_time row.end_time) with
    | some row =>
      { response := .badRequest ("Ce créneau est déjà réservé pour la box " ++
          toString row.box_id ++ ". Choisissez une autre heure ou une autre box.")
        store := store, stripeChecked := stripeChecked }
    | none =>
      { response := .ok rows (promo.map fun p =>
          (p.code, discountAmount, totalBeforeDiscount, max 0 (totalBeforeDiscount - discountAmount)))
        store := store ++ rows, stripeChecked := stripeChecked }

/-- `/api/confirm-reservation`.  `stripeStatusOf` is the external Stripe
collaborator (`paymentIntents.retrieve(id).status`).  The free-session
flag `!!isFree || !!loyaltyUsed` bypasses the whole payment
verification; otherwise the payment intent id must be present and its
status must be `"succeeded"`. -/
def confirmReservation (stripeStatusOf : String → String) (table : List PromoRecord)
    (today : Int) (store : List ReservationRow) (req : ConfirmRequest) : ConfirmOutcome :=
  let isFreeReservationFlag := req.isFree || req.loyaltyUsed
  if req.panier.isEmpty then
    { response := .badRequest "Panier vide", store := store, stripeChecked := false }
  else
    match isFreeReservationFlag, req.paymentIntentId with
    | false, none =>
      { response := .badRequest "paymentIntentId manquant", store := store, stripeChecked := false }
    | false, some pid =>
      if stripeStatusOf pid ≠ "succeeded" then
        { response := .badRequest "Paiement non validé par Stripe", store := store,
          stripeChecked := true }
      else confirmPersist table today store req true
    | true, _ => confirmPersist table today store req false

/-- `if (promoCode) { const result = await validatePromoCode(...) ... }`
of `/api/create-payment-intent`: the updated total, the discount and
the promo row; an absent or rejected code leaves the total unchanged. -/
def applyPromo (table : List PromoRecord) (today : Int) (promoCode : Option String)
    (totalBeforeDiscount : ℚ) : ℚ × ℚ × Option PromoRecord :=
  match promoCode with
  | some c =>
    match validatePromoCode table today c totalBeforeDiscount with
    | .applied nt d p => (nt, d, some p)
    | .notApplied _ => (totalBeforeDiscount, 0, none)
  | none => (totalBeforeDiscount, 0, none)

/-- The JSON response of `/api/create-payment-intent`: a 400, the
`isFree:true` response, or the normal response carrying a Stripe client
secret for `amountInCents`. -/
inductive PaymentIntentResponse where
  | badRequest (msg : String)
  | freeResponse (totalBeforeDiscount totalAfterDiscount discountAmount : ℚ)
      (promo : Option PromoRecord)
  | paidResponse (amountInCents : ℚ) (totalBeforeDiscount totalAfterDiscount discountAmount : ℚ)
      (promo : Option PromoRecord)
deriving DecidableEq

/-- Outcome of `/api/create-payment-intent`: the response and whether
`stripe.paymentIntents.create` was called. -/
structure PaymentIntentOutcome where
  response : PaymentIntentResponse
  stripeIntentCreated : Bool
deriving DecidableEq

/-- The final amount the server computes in
`/api/create-payment-intent`: the cart total, after the promo code and
after the loyalty-free override (which zeroes it last). -/
def finalAmountEur (table : List PromoRecord) (today : Int) (panier : List Slot)
    (promoCode : Option String) (loyaltyUsed : Bool) : ℚ :=
  if loyaltyUsed then 0
  else (applyPromo table today promoCode (computeCartTotalEur panier)).1

/-- `/api/create-payment-intent`: reject an empty cart, recompute the
total server-side, apply the promo code, apply the loyalty-free
override, and either return the `isFree:true` response without creating
any Stripe payment intent (final amount ≤ 0) or create the intent for
`Math.round(total × 100)` cents.  The client's `finalAmountCents` is
only logged and never used. -/
def createPaymentIntent (table : List PromoRecord) (today : Int) (panier : List Slot)
    (promoCode : Option String) (loyaltyUsed : Bool) : PaymentIntentOutcome :=
  if panier.isEmpty then { response := .badRequest "Panier vide", stripeIntentCreated := false }
  else
    let totalBeforeDiscount := computeCartTotalEur panier
    let afterPromo := applyPromo table today promoCode totalBeforeDiscount
    let totalAmountEur := if loyaltyUsed then 0 else afterPromo.1
    let discountAmount := if loyaltyUsed then totalBeforeDiscount else afterPromo.2.1
    let promo := afterPromo.2.2
    if totalAmountEur ≤ 0 then
      { response := .freeResponse totalBeforeDiscount 0 totalBeforeDiscount promo
        stripeIntentCreated := false }
    else
      { response := .paidResponse (jsRound (totalAmountEur * 100)) totalBeforeDiscount
          totalAmountEur discountAmount promo
        stripeIntentCreated := true }

/-- The JSON response of `/api/check` (the door QR reader). -/
inductive CheckResult where
  | missingId
  | notFound
  | checked (access : Bool) (reason : String)
deriving DecidableEq

/-- `marginBeforeMinutes = 5`: entry opens five minutes before start. -/
def marginBeforeMinutes : Int := 5

/-- `marginBeforeEndMinutes = 5`: last entry five minutes before end. -/
def marginBeforeEndMinutes : Int := 5

/-- `.eq("id", id).single()` on the `reservations` table: the row when
exactly one matches, else an error (`none`). -/
def lookupReservation (store : List (String × ReservationRow)) (id : String) :
    Option ReservationRow :=
  match store.filter (fun entry => entry.1 = id) with
  | [entry] => some entry.2
  | _ => none

/-- `/api/check?id=...` at instant `now` (minutes): 400 when `id` is
falsy, 404 when no reservation matches, otherwise the first-match-wins
decision chain — too early when `now < start - 5min`, too late when
`now > end - 5min`, invalid status when `status ≠ "confirmed"`, else
access granted. -/
def checkAccess (store : List (String × ReservationRow)) (id : String) (now : Int) :
    CheckResult :=
  if id = "" then .missingId
  else
    match lookupReservation store id with
    | none => .notFound
    | some data =>
      let startWithMargin := data.start_time.instant - marginBeforeMinutes
      let lastEntryTime := data.end_time.instant - marginBeforeEndMinutes
      if now < startWithMargin then .checked false "Trop tôt pour accéder à la box."
      else if now > lastEntryTime then .checked false "Créneau terminé, accès refusé."
      else if data.status ≠ "confirmed" then .checked false ("Statut invalide : " ++ data.status)
      else .checked true "Créneau valide, accès autorisé."

/-- The `/api/check` handler as a state transformer: it only ever reads
the `reservations` table (a single select), so the resulting table is
returned unchanged alongside the response. -/
def checkAccessHandler (store : List (String × ReservationRow)) (id : String) (now : Int) :
    CheckResult × List (String × ReservationRow) :=
  (checkAccess store id now, store)

/-- Constraint on a raw hour field under which the date+hour path is
well-behaved: a numeric hour must be nonnegative (the code accepts any
number; a negative one makes JS `Math.floor` and `%` disagree and the
produced strings are not valid ISO datetimes), while a textual hour
always parses to nonnegative digits. -/
def hourOk : RawHour → Prop
  | .num x => 0 ≤ x
  | .str _ => True

/-- No two rows of the list double-book: there is no pair of distinct
entries on the same box whose canonical ranges satisfy
`a.start < b.end` and `a.end > b.start`. -/
def pairwiseNoOverlap : List ReservationRow → Bool
  | [] => true
  | r :: rs =>
    rs.all (fun r2 => !(decide (r.box_id = r2.box_id)
      && decide (r.start_time.instant < r2.end_time.instant)
      && decide (r.end_time.instant > r2.start_time.instant))) && pairwiseNoOverlap rs

/-- Concrete slot: day 0, hour `"18h"`, no explicit instants. -/
def slotAt18h : Slot :=
  { date := some 0, hour := some (.str "18h"), start_time := none, end_time := none,
    price := none, boxId := none, box_id := none, box := none, boxName := none }

/-- Concrete slot: day 0, hour `"18h30"`, no explicit instants. -/
def slotAt18h30 : Slot :=
  { slotAt18h with hour := some (.str "18h30") }

/-- A free-flag confirmation request whose cart holds the two
overlapping slots 18:00-19:30 and 18:30-20:00 of the same (default)
box 1. -/
def overlappingCartRequest : ConfirmRequest :=
  { panier := [slotAt18h, slotAt18h30], customer := none, promoCode := none,
    paymentIntentId := none, loyaltyUsed := false, isFree := true }

/-- A persisted reservation on box 1 that ends exactly at 18:00 UTC of
day 0. -/
def backToBackRow : ReservationRow :=
  { name := none, email := none, box_id := 1, start_time := ⟨0, 17, 0, 0⟩,
    end_time := ⟨0, 18, 0, 0⟩, date := 0, datetime := ⟨0, 17, 0, 0⟩, status := "confirmed" }

/-- The row `/api/confirm-reservation` builds for `slotAt18h30`:
box 1, 18:30-20:00 at offset `+01:00`, status `"confirmed"`. -/
def row18h30 : ReservationRow :=
  { name := none, email := none, box_id := 1, start_time := ⟨0, 18, 30, 60⟩,
    end_time := ⟨0, 20, 0, 60⟩, date := 0, datetime := ⟨0, 18, 30, 60⟩, status := "confirmed" }

/-- A free-flag confirmation request for the single slot `slotAt18h30`. -/
def freeSlotRequest : ConfirmRequest :=
  { panier := [slotAt18h30], customer := none, promoCode := none,
    paymentIntentId := none, loyaltyUsed := false, isFree := true }

/-- A slot carrying explicit instants (10:00Z-12:30Z of day 20255) and
no `date` field. -/
def explicitSlot : Slot :=
  { date := none, hour := none, start_time := some ⟨20255, 10, 0, 0⟩,
    end_time := some ⟨20255, 12, 30, 0⟩,
    price := none, boxId := none, box_id := none, box := none, boxName := none }

/-- A slot carrying explicit instants whose end (9:00Z) lies before its
start (10:00Z). -/
def invertedSlot : Slot :=
  { date := none, hour := none, start_time := some ⟨0, 10, 0, 0⟩,
    end_time := some ⟨0, 9, 0, 0⟩,
    price := none, boxId := none, box_id := none, box := none, boxName := none }

/-- Promo code `F3`: active `fixed` 3 € off, 1 use of 5 consumed. -/
def fixed3 : PromoRecord :=
  { id := 3, code := "F3", type := "fixed", value := some 3, is_active := some true,
    valid_from := none, valid_to := none, max_uses := some 5, used_count := 1 }

/-- Promo code `NEG`: a `fixed` promo whose stored value is negative. -/
def negFixedPromo : PromoRecord :=
  { id := 1, code := "NEG", type := "fixed", value := some (-5), is_active := none,
    valid_from := none, valid_to := none, max_uses := none, used_count := 0 }

/-- Promo code `HALF`: 50 percent off. -/
def halfPromo : PromoRecord :=
  { id := 2, code := "HALF", type := "percent", value := some 50, is_active := none,
    valid_from := none, valid_to := none, max_uses := none, used_count := 0 }

/-- A one-slot cart priced 30 €. -/
def slotPriced30 : Slot :=
  { date := some 0, hour := some (.num 18), start_time := none, end_time := none,
    price := some 30, boxId := none, box_id := none, box := none, boxName := none }

/-- A persisted reservation (with id `"r1"`) on box 1, 18:00-19:30 UTC
of day 0, status confirmed. -/
def accessRow : ReservationRow :=
  { name := none, email := none, box_id := 1, start_time := ⟨0, 18, 0, 0⟩,
    end_time := ⟨0, 19, 30, 0⟩, date := 0, datetime := ⟨0, 18, 0, 0⟩, status := "confirmed" }

/-! ## Helper lemmas -/

/-- Every row built by `rowOfSlot` carries status `"confirmed"`. -/
theorem rowOfSlot_status (fullName : String) (email : Option String) (slot : Slot)
    (r : ReservationRow) (h : rowOfSlot fullName email slot = .ok r) :
    r.status = "confirmed" := by
  unfold rowOfSlot at h
  cases ht : buildTimesFromSlot slot with
  | error e => rw [ht] at h; simp at h
  | ok times => rw [ht] at h; simp at h; subst h; rfl

/-- Every row of a successfully built batch carries status
`"confirmed"`. -/
theorem buildRows_status (fullName : String) (email : Option String) :
    ∀ (panier : List Slot) (rows : List ReservationRow),
      buildRows fullName email panier = .ok rows → ∀ r ∈ rows, r.status = "confirmed"
  | [], rows, h => by
    simp [buildRows] at h; subst h; simp
  | slot :: rest, rows, h => by
    rw [buildRows] at h
    cases hr : rowOfSlot fullName email slot with
    | error e => rw [hr] at h; simp at h
    | ok r =>
      rw [hr] at h
      cases hrest : buildRows fullName email rest with
      | error e => rw [hrest] at h; simp at h
      | ok rs =>
        rw [hrest] at h
        simp at h
        subst h
        intro x hx
        rcases List.mem_cons.mp hx with hx | hx
        · rw [hx]; exact rowOfSlot_status fullName email slot r hr
        · exact buildRows_status fullName email rest rs hrest x hx

/-- Under `hourOk`, both components extracted from an hour field are
nonnegative. -/
theorem hourMinute_nonneg (rh : RawHour) (hok : hourOk rh) :
    0 ≤ (hourMinuteOfRaw rh).1 ∧ 0 ≤ (hourMinuteOfRaw rh).2 := by
  cases rh with
  | num x =>
    constructor
    · exact Int.floor_nonneg.mpr hok
    · refine Int.le_floor.mpr ?_
      have h1 : ((⌊x⌋ : Int) : ℚ) ≤ x := Int.floor_le x
      push_cast
      nlinarith
  | str s =>
    cases hp : parseHourString s <;> simp [hourMinuteOfRaw, hp]

/-- The date+hour path always produces an end exactly
`SLOT_DURATION_MINUTES` after the start, hence strictly later, for any
`hourOk` hour field: the `Math.floor`/`%` day-rollover arithmetic is
exact on nonnegative totals. -/
theorem buildTimesFromHour_duration (date : Int) (rh : RawHour) (hok : hourOk rh) :
    (buildTimesFromHour date rh).start_time.instant <
      (buildTimesFromHour date rh).end_time.instant ∧
    (buildTimesFromHour date rh).end_time.instant =
      (buildTimesFromHour date rh).start_time.instant + SLOT_DURATION_MINUTES := by
  obtain ⟨hb1, hb2⟩ := hourMinute_nonneg rh hok
  have htot : (0:Int) ≤ (hourMinuteOfRaw rh).1 * 60 + (hourMinuteOfRaw rh).2
      + SLOT_DURATION_MINUTES := by
    simp only [SLOT_DURATION_MINUTES]; omega
  constructor <;>
  · simp only [buildTimesFromHour, IsoDateTime.instant, addDaysToDateString]
    rw [Int.fdiv_eq_ediv _ (by norm_num), Int.tmod_eq_emod htot (by norm_num),
      Int.fdiv_eq_ediv _ (by norm_num),
      Int.tmod_eq_emod (Int.emod_nonneg _ (by norm_num)) (by norm_num)]
    simp only [SLOT_DURATION_MINUTES] at htot ⊢
    split <;> omega

/-- Characterization of a successful `validatePromoCode`: the discount
is the type-directed formula over `Number(value) || 0` and the new
total is `max(0, before - discount)`. -/
theorem validatePromoCode_applied_spec (table : List PromoRecord) (today : Int) (code : String)
    (before nt d : ℚ) (p : PromoRecord)
    (h : validatePromoCode table today code before = .applied nt d p) :
    d = (if p.type = "percent" then jsRound (before * (p.value.getD 0 / 100))
      else if p.type = "fixed" then min before (p.value.getD 0)
      else if p.type = "free" then before
      else 0) ∧
    nt = max 0 (before - d) := by
  unfold validatePromoCode at h
  by_cases h0 : code = ""
  · simp [h0] at h
  · rw [if_neg h0] at h
    simp only [] at h
    cases hl : singleByCode table (jsToUpper (jsTrim code)) with
    | none => rw [hl] at h; simp at h
    | some promo =>
      rw [hl] at h
      simp only [] at h
      by_cases h1 : promo.is_active = some false
      · simp [h1] at h
      · rw [if_neg h1] at h
        by_cases h2 : promoFromBlocks promo today = true
        · simp [h2] at h
        · simp only [h2, Bool.false_eq_true, if_false] at h
          by_cases h3 : promoToBlocks promo today = true
          · simp [h3] at h
          · simp only [h3, Bool.false_eq_true, if_false] at h
            by_cases h4 : promoUsesBlock promo = true
            · simp [h4] at h
            · simp only [h4, Bool.false_eq_true, if_false] at h
              simp only [PromoResult.applied.injEq] at h
              obtain ⟨hnt, hd, hp⟩ := h
              subst hp
              exact ⟨hd.symm, by rw [hnt.symm, hd]⟩

/-! ## Claims -/

/-- C1: the claim states that after any successful
`/api/confirm-reservation`, no two persisted reservations on the same
`box_id` overlap — in particular rows of one confirmed cart pairwise.
The code checks each cart row only against rows already persisted,
never against the other rows of the same cart: confirming a free cart
holding the two overlapping slots 18:00-19:30 and 18:30-20:00 of box 1
against an empty table succeeds and persists both, violating the
no-double-booking invariant.  This theorem evaluates the handler at
that failing input. -/
theorem confirm_persists_intra_cart_overlap :
    (confirmReservation (fun _ => "succeeded") [] 0 [] overlappingCartRequest).response.isOk
        = true ∧
    pairwiseNoOverlap
      (confirmReservation (fun _ => "succeeded") [] 0 [] overlappingCartRequest).store
        = false := by
  decide

/-- C2: the availability check reports a conflict for a candidate
range and box iff some persisted reservation with that `box_id`
satisfies `existing.start < candidate.end` and
`existing.end > candidate.start`, both strict; a back-to-back row
(ending exactly at the candidate's start, or starting exactly at its
end) never counts as conflicting. -/
theorem availability_conflict_rule (store : List ReservationRow) (b : Int)
    (startT endT : IsoDateTime) :
    (hasConflict store b startT endT = true ↔
      ∃ r ∈ store, r.box_id = b ∧ r.start_time.instant < endT.instant ∧
        r.end_time.instant > startT.instant) ∧
    (∀ r : ReservationRow,
      r.end_time.instant = startT.instant ∨ r.start_time.instant = endT.instant →
        conflictsWith r b startT endT = false) := by
  constructor
  · simp [hasConflict, conflictsWith, List.any_eq_true, and_assoc]
  · intro r h
    rcases h with h | h <;> simp [conflictsWith, h]

/-- Witness for C2: a reservation ending exactly at 18:00 is not a
conflict for a candidate 18:00-19:30 slot of the same box. -/
theorem availability_conflict_rule_witness :
    conflictsWith backToBackRow 1 ⟨0, 18, 0, 0⟩ ⟨0, 19, 30, 0⟩ = false ∧
    hasConflict [backToBackRow] 1 ⟨0, 18, 0, 0⟩ ⟨0, 19, 30, 0⟩ = false := by
  have h := availability_conflict_rule [backToBackRow] 1 ⟨0, 18, 0, 0⟩ ⟨0, 19, 30, 0⟩
  refine ⟨h.2 backToBackRow (Or.inl (by decide)), ?_⟩
  cases hc : hasConflict [backToBackRow] 1 ⟨0, 18, 0, 0⟩ ⟨0, 19, 30, 0⟩
  · rfl
  · exfalso
    obtain ⟨r, hr, hb, hlt, hgt⟩ := h.1.mp hc
    rw [List.mem_singleton] at hr
    subst hr
    revert hgt
    decide

/-- C3: if any cart row conflicts with an already-persisted
reservation, the whole confirmation is rejected and nothing is
inserted; the per-row checks run sequentially before the single batch
insert, and the first conflicting row determines the 400 error
response (shown here on the free-flag path, where no earlier gate can
intervene). -/
theorem confirm_rejects_on_conflict
    (stripeStatusOf : String → String) (table : List PromoRecord) (today : Int)
    (store : List ReservationRow) (req : ConfirmRequest) (rows : List ReservationRow)
    (r0 : ReservationRow)
    (hrows : buildRows (fullNameOf req.customer) (emailOf req.customer) req.panier = .ok rows)
    (hfind : rows.find?
      (fun row => hasConflict store row.box_id row.start_time row.end_time) = some r0) :
    (confirmReservation stripeStatusOf table today store req).store = store ∧
    (confirmReservation stripeStatusOf table today store req).response.isOk = false ∧
    (req.isFree = true →
      (confirmReservation stripeStatusOf table today store req).response =
        .badRequest ("Ce créneau est déjà réservé pour la box " ++ toString r0.box_id ++
          ". Choisissez une autre heure ou une autre box.")) := by
  have hne : req.panier.isEmpty = false := by
    cases hp : req.panier with
    | nil => rw [hp] at hrows; simp [buildRows] at hrows; subst hrows; simp at hfind
    | cons a l => simp
  unfold confirmReservation
  rw [hne]
  cases hfq : req.isFree <;> cases hlq : req.loyaltyUsed <;>
    cases hpid : req.paymentIntentId <;>
    refine ⟨?_, ?_, ?_⟩ <;>
    simp only [Bool.or_self, Bool.or_true, Bool.true_or, Bool.false_or, Bool.false_eq_true,
      if_false] <;>
    (try split) <;>
    simp [confirmPersist, hrows, hfind, ConfirmResponse.isOk]

/-- Witness for C3: confirming a cart holding an 18:30-20:00 slot of
box 1 against a table already containing that very range is rejected
and the table is unchanged. -/
theorem confirm_rejects_on_conflict_witness :
    (confirmReservation (fun _ => "succeeded") [] 0 [row18h30] freeSlotRequest).store
        = [row18h30] ∧
    (confirmReservation (fun _ => "succeeded") [] 0 [row18h30] freeSlotRequest).response.isOk
        = false := by
  have h := confirm_rejects_on_conflict (fun _ => "succeeded") [] 0 [row18h30] freeSlotRequest
    [row18h30] row18h30 (by rfl) (by decide)
  exact ⟨h.1, h.2.1⟩

/-- C4: a slot carrying explicit (truthy) `start_time` and `end_time`
is passed through verbatim by the time resolver — the resolved range
is exactly the given instants, the `date` is the slot's `date` field
or, when absent, the date part (first 10 characters) of `start_time`,
and no duration policy is applied on this path. -/
theorem resolver_passthrough (slot : Slot) (st et : IsoDateTime)
    (hs : slot.start_time = some st) (he : slot.end_time = some et) :
    ∃ t, buildTimesFromSlot slot = .ok t ∧ t.start_time = st ∧ t.end_time = et ∧
      (∀ d, slot.date = some d → t.date = d) ∧ (slot.date = none → t.date = st.day) := by
  refine ⟨⟨st, et, slot.date.getD st.day, st⟩, ?_, rfl, rfl, ?_, ?_⟩
  · unfold buildTimesFromSlot; rw [hs, he]
  · intro d hd; simp [hd]
  · intro hd; simp [hd]

/-- Witness for C4: the dateless `explicitSlot` resolves to exactly
its own instants, with the date taken from `start_time`. -/
theorem resolver_passthrough_witness :
    (buildTimesFromSlot explicitSlot).map SlotTimes.start_time = .ok ⟨20255, 10, 0, 0⟩ ∧
    (buildTimesFromSlot explicitSlot).map SlotTimes.end_time = .ok ⟨20255, 12, 30, 0⟩ ∧
    (buildTimesFromSlot explicitSlot).map SlotTimes.date = .ok 20255 := by
  obtain ⟨t, ht, h1, h2, _, h4⟩ := resolver_passthrough explicitSlot ⟨20255, 10, 0, 0⟩
    ⟨20255, 12, 30, 0⟩ rfl rfl
  have hd := h4 rfl
  rw [ht]
  simp [Except.map, h1, h2, hd]

/-- Counterexample for C5: the resolver accepts a slot whose explicit
end instant (9:00Z) precedes its start instant (10:00Z) and returns it
unchanged, so the claimed invariant `end > start` fails on an accepted
input. -/
theorem resolver_accepts_inverted_range :
    buildTimesFromSlot invertedSlot =
      .ok ⟨⟨0, 10, 0, 0⟩, ⟨0, 9, 0, 0⟩, 0, ⟨0, 10, 0, 0⟩⟩ ∧
    ¬ ((⟨0, 9, 0, 0⟩ : IsoDateTime).instant > (⟨0, 10, 0, 0⟩ : IsoDateTime).instant) :=
  ⟨rfl, by decide⟩

/-- C5 (amended): on the date+hour path — the only path where the
resolver computes anything — every resolved range satisfies
`end > start`; indeed `end = start + SLOT_DURATION_MINUTES` exactly,
for every hour field that is textual or a nonnegative number.  Slots
carrying explicit instants are passed through unchecked and may
violate the invariant (see the counterexample). -/
theorem resolver_hour_path_end_after_start (slot : Slot) (t : SlotTimes)
    (d : Int) (rh : RawHour)
    (hnotboth : slot.start_time = none ∨ slot.end_time = none)
    (hd : slot.date = some d) (hh : slot.hour = some rh)
    (hok : hourOk rh)
    (ht : buildTimesFromSlot slot = .ok t) :
    t.start_time.instant < t.end_time.instant ∧
      t.end_time.instant = t.start_time.instant + SLOT_DURATION_MINUTES := by
  have hteq : t = buildTimesFromHour d rh := by
    unfold buildTimesFromSlot at ht
    rcases hst : slot.start_time with _ | st <;> rcases het : slot.end_time with _ | et <;>
      rw [hst, het] at ht
    · rw [hd, hh] at ht; simpa using ht.symm
    · rw [hd, hh] at ht; simpa using ht.symm
    · rw [hd, hh] at ht; simpa using ht.symm
    · rcases hnotboth with h | h
      · rw [hst] at h; cases h
      · rw [het] at h; cases h
  rw [hteq]
  exact buildTimesFromHour_duration d rh hok

/-- Witness for C5 (amended): the 18:00 slot of day 0 resolves to a
range whose end is strictly after its start. -/
theorem resolver_hour_path_end_after_start_witness :
    (buildTimesFromHour 0 (.str "18h")).start_time.instant <
      (buildTimesFromHour 0 (.str "18h")).end_time.instant :=
  (resolver_hour_path_end_after_start slotAt18h (buildTimesFromHour 0 (.str "18h")) 0
    (.str "18h") (Or.inl rfl) rfl rfl trivial rfl).1

/-- C6: whenever the promo validation succeeds, the discount is
computed by type — `percent` rounds `before × value/100`, `fixed` caps
the stored value at the cart total, `free` discounts the whole total,
any other type discounts nothing — and the payable amount is
`max(0, before - discount)`. -/
theorem promo_discount_by_type (table : List PromoRecord) (today : Int) (code : String)
    (before nt d : ℚ) (p : PromoRecord)
    (h : validatePromoCode table today code before = .applied nt d p) :
    (p.type = "percent" → d = jsRound (before * (p.value.getD 0 / 100))) ∧
    (p.type = "fixed" → d = min before (p.value.getD 0)) ∧
    (p.type = "free" → d = before) ∧
    (p.type ≠ "percent" → p.type ≠ "fixed" → p.type ≠ "free" → d = 0) ∧
    nt = max 0 (before - d) := by
  obtain ⟨hd, hnt⟩ := validatePromoCode_applied_spec table today code before nt d p h
  refine ⟨?_, ?_, ?_, ?_, hnt⟩
  · intro ht; rw [hd]; simp +decide [ht]
  · intro ht; rw [hd]; simp +decide [ht]
  · intro ht; rw [hd]; simp +decide [ht]
  · intro h1 h2 h3; rw [hd]; simp [h1, h2, h3]

/-- Witness for C6: the active `fixed` promo `F3` (3 € off) applied to
a 10 € cart yields discount 3 and total 7. -/
theorem promo_discount_by_type_witness :
    validatePromoCode [fixed3] 0 "F3" 10 = .applied 7 3 fixed3 ∧
      (3:ℚ) = min 10 (fixed3.value.getD 0) ∧ (7:ℚ) = max 0 (10 - 3) := by
  have hval : validatePromoCode [fixed3] 0 "F3" 10 = .applied 7 3 fixed3 := by
    have h : jsToUpper (jsTrim "F3") = "F3" := by decide
    simp +decide [validatePromoCode, h, singleByCode, fixed3, promoFromBlocks,
      promoToBlocks, promoUsesBlock]
    norm_num
  have hspec := promo_discount_by_type [fixed3] 0 "F3" 10 7 3 fixed3 hval
  exact ⟨hval, hspec.2.1 rfl, hspec.2.2.2.2⟩

/-- Counterexample for C7: the claim quantifies over every cart total
and every stored promo value.  A `fixed` promo whose stored value is
-5 applied to a 10 € cart yields discount -5 and payable total 15, so
`after ≤ before` and `discount ≥ 0` both fail; and the 50 percent
promo applied to a -10 € cart total (negative client-supplied prices
are accepted) yields discount -5 < 0. -/
theorem promo_invariant_counterexample :
    (validatePromoCode [negFixedPromo] 0 "NEG" 10 = .applied 15 (-5) negFixedPromo ∧
      ¬ ((15:ℚ) ≤ 10 ∧ 0 ≤ (-5:ℚ))) ∧
    (validatePromoCode [halfPromo] 0 "HALF" (-10) = .applied 0 (-5) halfPromo ∧
      ¬ (0 ≤ (-5:ℚ))) := by
  refine ⟨⟨?_, by norm_num⟩, ⟨?_, by norm_num⟩⟩
  · have h : jsToUpper (jsTrim "NEG") = "NEG" := by decide
    simp +decide [validatePromoCode, h, singleByCode, negFixedPromo, promoFromBlocks,
      promoToBlocks, promoUsesBlock]
    norm_num
  · have h : jsToUpper (jsTrim "HALF") = "HALF" := by decide
    simp +decide [validatePromoCode, h, singleByCode, halfPromo, promoFromBlocks,
      promoToBlocks, promoUsesBlock, jsRound]
    norm_num [Int.floor_eq_iff]

/-- C7 (amended): for every nonnegative cart total and every promo
record whose stored value is nonnegative — all promo types — a
successful validation satisfies `after ≤ before` and `discount ≥ 0`. -/
theorem promo_invariant_nonneg (table : List PromoRecord) (today : Int) (code : String)
    (before nt d : ℚ) (p : PromoRecord)
    (hbefore : 0 ≤ before) (hvalue : 0 ≤ p.value.getD 0)
    (h : validatePromoCode table today code before = .applied nt d p) :
    nt ≤ before ∧ 0 ≤ d := by
  obtain ⟨hd, hnt⟩ := validatePromoCode_applied_spec table today code before nt d p h
  have hdn : 0 ≤ d := by
    rw [hd]
    split
    · unfold jsRound
      have hy : (0:ℚ) ≤ before * (p.value.getD 0 / 100) := by positivity
      have := Int.floor_nonneg.mpr (show (0:ℚ) ≤ before * (p.value.getD 0 / 100) + 1/2 by
        linarith)
      exact_mod_cast this
    · split
      · exact le_min hbefore hvalue
      · split
        · exact hbefore
        · exact le_refl 0
  exact ⟨by rw [hnt]; exact max_le hbefore (by linarith), hdn⟩

/-- Witness for C7 (amended): promo `F3` on a 10 € cart gives
`after = 7 ≤ 10` and `discount = 3 ≥ 0`. -/
theorem promo_invariant_nonneg_witness :
    (7:ℚ) ≤ 10 ∧ (0:ℚ) ≤ 3 := by
  have hval : validatePromoCode [fixed3] 0 "F3" 10 = .applied 7 3 fixed3 := by
    have h : jsToUpper (jsTrim "F3") = "F3" := by decide
    simp +decide [validatePromoCode, h, singleByCode, fixed3, promoFromBlocks,
      promoToBlocks, promoUsesBlock]
    norm_num
  exact promo_invariant_nonneg [fixed3] 0 "F3" 10 7 3 fixed3 (by norm_num)
    (by norm_num [fixed3]) hval

/-- C8: whenever the server-side final amount (after promo and the
loyalty-free override) is ≤ 0, `/api/create-payment-intent` creates no
Stripe payment intent and answers `isFree:true` with
`totalAfterDiscount` 0 and `discountAmount` equal to the whole total
before discount. -/
theorem payment_intent_free_short_circuit (table : List PromoRecord) (today : Int)
    (panier : List Slot) (promoCode : Option String) (loyaltyUsed : Bool)
    (hne : panier.isEmpty = false)
    (hfree : finalAmountEur table today panier promoCode loyaltyUsed ≤ 0) :
    (createPaymentIntent table today panier promoCode loyaltyUsed).stripeIntentCreated = false ∧
    (createPaymentIntent table today panier promoCode loyaltyUsed).response =
      .freeResponse (computeCartTotalEur panier) 0 (computeCartTotalEur panier)
        (applyPromo table today promoCode (computeCartTotalEur panier)).2.2 := by
  unfold createPaymentIntent
  rw [hne]
  unfold finalAmountEur at hfree
  simp only [Bool.false_eq_true, if_false]
  by_cases hl : loyaltyUsed = true
  · rw [hl] at hfree ⊢
    simp only [if_true]
    rw [if_pos (le_refl (0:ℚ))]
    exact ⟨rfl, rfl⟩
  · have hl2 : loyaltyUsed = false := by revert hl; cases loyaltyUsed <;> simp
    rw [hl2] at hfree ⊢
    simp only [Bool.false_eq_true, if_false] at hfree ⊢
    rw [if_pos hfree]
    exact ⟨rfl, rfl⟩

/-- Witness for C8: a 30 € cart with the loyalty-free flag produces no
Stripe intent and the `isFree` response refunding the full 30 €. -/
theorem payment_intent_free_short_circuit_witness :
    (createPaymentIntent [] 0 [slotPriced30] none true).stripeIntentCreated = false ∧
    (createPaymentIntent [] 0 [slotPriced30] none true).response =
      .freeResponse (computeCartTotalEur [slotPriced30]) 0 (computeCartTotalEur [slotPriced30])
        (applyPromo [] 0 none (computeCartTotalEur [slotPriced30])).2.2 :=
  payment_intent_free_short_circuit [] 0 [slotPriced30] none true rfl
    (by norm_num [finalAmountEur])

/-- C9: for a found reservation the door check decides in first-match
order — too early when `now < start - 5min`, else too late when
`now > end - 5min`, else invalid status when `status ≠ "confirmed"`,
else access granted; an unknown id yields the 404 not-found result;
and the handler never mutates the reservations table (it only
selects). -/
theorem check_access_decision_order (store : List (String × ReservationRow)) (id : String)
    (now : Int) :
    (id ≠ "" → lookupReservation store id = none → checkAccess store id now = .notFound) ∧
    (∀ r, id ≠ "" → lookupReservation store id = some r →
      (now < r.start_time.instant - marginBeforeMinutes →
        checkAccess store id now = .checked false "Trop tôt pour accéder à la box.") ∧
      (¬ now < r.start_time.instant - marginBeforeMinutes →
        now > r.end_time.instant - marginBeforeEndMinutes →
          checkAccess store id now = .checked false "Créneau terminé, accès refusé.") ∧
      (¬ now < r.start_time.instant - marginBeforeMinutes →
        ¬ now > r.end_time.instant - marginBeforeEndMinutes →
        r.status ≠ "confirmed" →
          checkAccess store id now = .checked false ("Statut invalide : " ++ r.status)) ∧
      (¬ now < r.start_time.instant - marginBeforeMinutes →
        ¬ now > r.end_time.instant - marginBeforeEndMinutes →
        r.status = "confirmed" →
          checkAccess store id now = .checked true "Créneau valide, accès autorisé.")) ∧
    (checkAccessHandler store id now).2 = store := by
  refine ⟨?_, ?_, rfl⟩
  · intro hid hl
    simp [checkAccess, hid, hl]
  · intro r hid hl
    refine ⟨?_, ?_, ?_, ?_⟩
    · intro h1; simp [checkAccess, hid, hl, h1]
    · intro h1 h2; simp [checkAccess, hid, hl, h1, h2]
    · intro h1 h2 h3; simp [checkAccess, hid, hl, h1, h2, h3]
    · intro h1 h2 h3; simp [checkAccess, hid, hl, h1, h2, h3]

/-- Witness for C9: against a confirmed 18:00-19:30 reservation, a
scan 10 minutes early is refused as too early, a scan 3 minutes early
(inside the 5-minute margin) is granted, and an unknown id is not
found. -/
theorem check_access_decision_order_witness :
    checkAccess [("r1", accessRow)] "r1" (18 * 60 - 10) =
        .checked false "Trop tôt pour accéder à la box." ∧
    checkAccess [("r1", accessRow)] "r1" (18 * 60 - 3) =
        .checked true "Créneau valide, accès autorisé." ∧
    checkAccess [("r1", accessRow)] "zz" 0 = .notFound := by
  have hl : lookupReservation [("r1", accessRow)] "r1" = some accessRow := by decide
  have hmiss : lookupReservation [("r1", accessRow)] "zz" = none := by decide
  refine ⟨?_, ?_, ?_⟩
  · exact ((check_access_decision_order [("r1", accessRow)] "r1" (18 * 60 - 10)).2.1
      accessRow (by decide) hl).1 (by decide)
  · exact ((check_access_decision_order [("r1", accessRow)] "r1" (18 * 60 - 3)).2.1
      accessRow (by decide) hl).2.2.2 (by decide) (by decide) rfl
  · exact (check_access_decision_order [("r1", accessRow)] "zz" 0).1 (by decide) hmiss

/-- C10: a confirmation request whose `isFree` or `loyaltyUsed` flag
is truthy skips the Stripe payment verification entirely — the
external payment collaborator is never consulted, whatever it would
answer — and, when no cart row conflicts with a persisted reservation,
the whole cart is batch-inserted with status `"confirmed"`, for every
promo table and recomputed price. -/
theorem confirm_free_flag_skips_payment
    (stripeStatusOf : String → String) (table : List PromoRecord) (today : Int)
    (store : List ReservationRow) (req : ConfirmRequest) (rows : List ReservationRow)
    (hflag : (req.isFree || req.loyaltyUsed) = true)
    (hne : req.panier.isEmpty = false)
    (hrows : buildRows (fullNameOf req.customer) (emailOf req.customer) req.panier = .ok rows)
    (hnoconf : rows.find?
      (fun row => hasConflict store row.box_id row.start_time row.end_time) = none) :
    (confirmReservation stripeStatusOf table today store req).stripeChecked = false ∧
    (confirmReservation stripeStatusOf table today store req).store = store ++ rows ∧
    (∃ pr, (confirmReservation stripeStatusOf table today store req).response = .ok rows pr) ∧
    (∀ r ∈ rows, r.status = "confirmed") := by
  unfold confirmReservation
  rw [hne, hflag]
  simp only [Bool.false_eq_true, if_false]
  refine ⟨?_, ?_, ?_, buildRows_status _ _ _ _ hrows⟩ <;>
    simp [confirmPersist, hrows, hnoconf]

/-- Witness for C10: the free-flag request for the 18:30 slot is
persisted against an empty table without consulting Stripe (whose
answer here would refuse the payment). -/
theorem confirm_free_flag_skips_payment_witness :
    (confirmReservation (fun _ => "requires_payment_method") [] 0 []
        freeSlotRequest).stripeChecked = false ∧
    (confirmReservation (fun _ => "requires_payment_method") [] 0 []
        freeSlotRequest).store = [] ++ [row18h30] := by
  have h := confirm_free_flag_skips_payment (fun _ => "requires_payment_method") [] 0 []
    freeSlotRequest [row18h30] rfl rfl (by rfl) (by decide)
  exact ⟨h.1, h.2.1⟩
